import Mathlib

/-!
Shallow embedding of `src/run.py` (MultiOperationsScript): secret resolution,
MS SQL provisioning, SSH inspection, WinRM bridging and the orchestrating
`run` method, together with theorems settling the specification claims.
-/

/-- Embeds `RECURSION_FLAG = "--no-winrm-recursion"` (run.py line 44). -/
def RECURSION_FLAG : String := "--no-winrm-recursion"

/-- A parsed JSON object payload: association list of string keys to string
values, in document order (Python dict lookups take the stored binding). -/
abbrev SecretPayload := List (String × String)

/-- Python `k in d` membership test on a payload. -/
def hasKey (p : SecretPayload) (k : String) : Bool :=
  p.any (fun kv => kv.1 == k)

/-- Python `d[k]` lookup on a payload (first binding of the key). -/
def lookupKey (p : SecretPayload) (k : String) : Option String :=
  (p.find? (fun kv => kv.1 == k)).map (fun kv => kv.2)

/-- The Secrets Manager `get_secret_value` response: association list of
response keys to (already JSON-parsed) payloads. -/
abbrev AwsResponse := List (String × SecretPayload)

/-- Embeds `_get_aws_secret` (run.py lines 124-131): if the response contains
a `SecretString` entry its parsed payload is returned, otherwise the function
falls off the end of the `try` block and returns Python `None`. -/
def getAwsSecret (resp : AwsResponse) : Option SecretPayload :=
  (resp.find? (fun kv => kv.1 == "SecretString")).map (fun kv => kv.2)

/-- The Python exceptions the script can raise, named after their Python
classes.  The spec taxonomy maps onto them: `SecretMalformed` is the
`ValueError` for missing keys, `ConnectionFailed`/`SchemaCreationFailed`/
`TableCreationFailed`/`InsertFailed`/`QueryFailed` are driver errors
(`connectionFailed`/`sqlError`), `KeyNotFound` is `fileNotFoundError`,
`RemoteExecutionFailed` is `runtimeError`.  `typeError` (membership test on
`None`) is NOT part of the spec taxonomy. -/
inductive PyError where
  | typeError
  | valueErrorMissingKeys
  | connectionFailed
  | sqlError
  | fileNotFoundError
  | runtimeError
deriving DecidableEq, Repr

/-- The credential record extracted from the secret payload. -/
structure CredentialRecord where
  username : String
  password : String
deriving DecidableEq, Repr

/-- Embeds run.py lines 149-153: the membership check
`all(key in credentials for key in ['username', 'password'])` followed by the
indexing `credentials['username']` / `credentials['password']`.  Iterating a
membership test over Python `None` raises `TypeError`; a payload missing a
required key raises the `ValueError` of line 150. -/
def resolveCredentials (credentials : Option SecretPayload) :
    Except PyError CredentialRecord :=
  match credentials with
  | none => .error .typeError
  | some creds =>
      if hasKey creds "username" && hasKey creds "password" then
        .ok { username := (lookupKey creds "username").getD ""
            , password := (lookupKey creds "password").getD "" }
      else .error .valueErrorMissingKeys

/-! ### Decimal rendering of integers

`db_name = f"ExampleDB_{int(time.time())}"` (run.py line 174) formats a
non-negative integer in decimal.  `decDigitsAux` renders the decimal digits
(fuel-based so that it evaluates by kernel reduction); `natStr` is the
rendered string. -/

/-- Decimal digit characters of `n`, most significant first; `fuel` bounds
the recursion depth and is irrelevant as long as `n < fuel`. -/
def decDigitsAux : Nat → Nat → List Char
  | 0, _ => []
  | fuel + 1, n =>
      if n < 10 then [Char.ofNat (48 + n)]
      else decDigitsAux fuel (n / 10) ++ [Char.ofNat (48 + n % 10)]

/-- Python `str(n)` / f-string formatting of a non-negative integer. -/
def natStr (n : Nat) : String := ⟨decDigitsAux (n + 1) n⟩

/-- Value of a decimal digit string (left inverse of the rendering). -/
def decValue (cs : List Char) : Nat :=
  cs.foldl (fun a c => 10 * a + (c.toNat - 48)) 0

/-- Embeds `db_name = f"ExampleDB_{int(time.time())}"` (run.py line 174).
`time.time()` is modelled at microsecond resolution as a `Nat`; Python
`int()` truncates it to whole seconds, which is the `/ 1000000`. -/
def dbName (tMicros : Nat) : String :=
  "ExampleDB_" ++ natStr (tMicros / 1000000)

/-! ### Table model for the provisioning round-trip

The freshly created table (run.py lines 202-210) has
`ID INT PRIMARY KEY IDENTITY(1,1)`: the identity counter starts at 1 and
steps by 1 on each insert.  The database is freshly created, so the table
starts empty. -/

/-- A row of `ExampleSchema.ExampleTable` (the `CreatedDate` column is
server-defaulted and not modelled). -/
structure TableRow where
  id : Nat
  name : String
  description : String
deriving DecidableEq, Repr

/-- Table state: next identity value and rows in physical insertion order. -/
structure TableState where
  nextId : Nat
  rows : List TableRow
deriving DecidableEq, Repr

/-- The table as created by the `CREATE TABLE` of run.py lines 202-210 in
the freshly created database: empty, identity counter at 1. -/
def freshTable : TableState := { nextId := 1, rows := [] }

/-- One parameterized `INSERT INTO ... (Name, Description) VALUES (%s, %s)`
(run.py lines 222-226): appends a row carrying the current identity value. -/
def insertRow (t : TableState) (name description : String) : TableState :=
  { nextId := t.nextId + 1
  , rows := t.rows ++ [{ id := t.nextId, name := name, description := description }] }

/-- Embeds `sample_data` (run.py lines 216-220). -/
def sample_data : List (String × String) :=
  [ ("Sample Item 1", "This is a description for sample item 1")
  , ("Sample Item 2", "This is a description for sample item 2")
  , ("Sample Item 3", "This is a description for sample item 3") ]

/-- Embeds the insertion loop `for name, description in sample_data: ...`
(run.py lines 222-226). -/
def insertSampleData (t : TableState) : TableState :=
  sample_data.foldl (fun acc nd => insertRow acc nd.1 nd.2) t

/-- Embeds `SELECT * FROM {table_name}` + `fetchall()` (run.py lines
233-234): all rows in physical insertion order. -/
def selectAllRows (t : TableState) : List TableRow := t.rows

/-- Embeds `schema_name = "ExampleSchema"` (run.py line 193). -/
def schema_name : String := "ExampleSchema"

/-- Embeds `table_name = f"{schema_name}.ExampleTable"` (run.py line 200). -/
def table_name : String := schema_name ++ ".ExampleTable"

/-- SQL text of the parameterized insert (run.py line 224): the `%s`
placeholders stand for the parameters, the values are not interpolated. -/
def insertSqlText (tableName : String) : String :=
  "INSERT INTO " ++ tableName ++ " (Name, Description) VALUES (%s, %s)"

/-- A parameterized statement as handed to `cursor.execute(sql, params)`:
the SQL text and the parameter tuple travel separately. -/
structure ParamStatement where
  sqlText : String
  params : String × String
deriving DecidableEq, Repr

/-- Embeds the `cursor.execute` call of run.py lines 222-226 for one sample
row: SQL text built from the table name only, values passed as parameters. -/
def insertStatement (tableName name description : String) : ParamStatement :=
  { sqlText := insertSqlText tableName, params := (name, description) }

/-! ### The MS SQL operation as a session-event trace

`_perform_mssql_operations` (run.py lines 137-246) is straight-line code
with no `finally` block: an exception raised at any step propagates via the
bare `raise` of line 246 without closing any open connection.  The external
world (secret store, server) is an `MssqlEnv` deciding which step fails. -/

/-- Session open/close events, with database connections numbered in order
of opening. -/
inductive SessEvent where
  | openSession (id : Nat)
  | closeSession (id : Nat)
deriving DecidableEq, Repr

/-- Environment for one MS SQL operation run: the secret-store response and
a success flag per fallible step. -/
structure MssqlEnv where
  awsResponse : AwsResponse
  connectOk : Bool
  createDbOk : Bool
  connect2Ok : Bool
  createSchemaOk : Bool
  createTableOk : Bool
  insertOk : Bool
  selectOk : Bool

/-- Outcome of one MS SQL operation run: the session events it produced and
the exception it raised, if any (`none` = returned normally). -/
structure MssqlResult where
  sessions : List SessEvent
  raised : Option PyError
deriving DecidableEq, Repr

/-- Embeds `_perform_mssql_operations` (run.py lines 137-246) at the level
of credential resolution and session lifecycle.  Control flow mirrors the
source: resolve credentials (lines 147-153), connect (163-168), create the
database (174-177), `conn.close()` then reconnect into the new database
(182-190), create schema (195), create table (202-210), insert (222-228),
select (233-234), `conn.close()` (241).  No step is wrapped in `finally`,
so a failure after a connect leaves that connection open. -/
def runMssql (env : MssqlEnv) : MssqlResult :=
  match resolveCredentials (getAwsSecret env.awsResponse) with
  | .error e => { sessions := [], raised := some e }
  | .ok _ =>
      if !env.connectOk then
        { sessions := [], raised := some .connectionFailed }
      else
        let ev1 := [SessEvent.openSession 1]
        if !env.createDbOk then { sessions := ev1, raised := some .sqlError }
        else
          let ev2 := ev1 ++ [SessEvent.closeSession 1]
          if !env.connect2Ok then { sessions := ev2, raised := some .connectionFailed }
          else
            let ev3 := ev2 ++ [SessEvent.openSession 2]
            if !env.createSchemaOk then { sessions := ev3, raised := some .sqlError }
            else if !env.createTableOk then { sessions := ev3, raised := some .sqlError }
            else if !env.insertOk then { sessions := ev3, raised := some .sqlError }
            else if !env.selectOk then { sessions := ev3, raised := some .sqlError }
            else { sessions := ev3 ++ [SessEvent.closeSession 2], raised := none }

/-- Ids of sessions opened in a trace. -/
def openedIds (evs : List SessEvent) : List Nat :=
  evs.filterMap (fun e => match e with | .openSession i => some i | _ => none)

/-- Ids of sessions closed in a trace. -/
def closedIds (evs : List SessEvent) : List Nat :=
  evs.filterMap (fun e => match e with | .closeSession i => some i | _ => none)

/-- Every session opened in the trace is also closed in it. -/
def allSessionsClosed (evs : List SessEvent) : Bool :=
  (openedIds evs).all (fun i => (closedIds evs).contains i)

/-! ### The SSH operation as a trace -/

/-- Python `str.strip()`: drop whitespace from both ends (structural, so it
evaluates by kernel reduction). -/
def pyStrip (s : String) : String :=
  ⟨((s.data.dropWhile Char.isWhitespace).reverse.dropWhile Char.isWhitespace).reverse⟩

/-- Environment for one SSH operation run: key-file presence, connection
success, and the raw stdout/stderr each remote command produces. -/
structure SshEnv where
  keyExists : Bool
  connectOk : Bool
  execOut : String → String
  execErr : String → String

/-- Outcome of one SSH operation run: session events, the commands executed
in order, the warning messages logged, and the exception raised if any. -/
structure SshResult where
  sessions : List SessEvent
  executed : List String
  warnings : List String
  raised : Option PyError
deriving DecidableEq, Repr

/-- Embeds the `commands` list of run.py lines 299-303 (step 5). -/
def sshLoopCommands : List String :=
  ["uname -a", "cat /etc/os-release | grep PRETTY_NAME", "uptime"]

/-- The full fixed battery of five introspection commands, in execution
order (run.py lines 277, 288, 299-303). -/
def sshAllCommands : List String :=
  ["hostname -I", "hostname -f"] ++ sshLoopCommands

/-- Embeds `_perform_ssh_operations` (run.py lines 248-317).  Key check
(line 258), connect (266-271), `hostname -I` with a warning when the
stripped output is empty (277-284), `hostname -f` likewise (288-295), then
the three loop commands which log only on non-empty output — an empty
output there produces no warning (305-309) — and `ssh_client.close()`
(312). -/
def runSsh (env : SshEnv) : SshResult :=
  if !env.keyExists then
    { sessions := [], executed := [], warnings := [], raised := some .fileNotFoundError }
  else if !env.connectOk then
    { sessions := [], executed := [], warnings := [], raised := some .connectionFailed }
  else
    let out1 := pyStrip (env.execOut "hostname -I")
    let w1 : List String :=
      if out1 = "" then
        ["Could not retrieve IP addresses. Error: " ++ pyStrip (env.execErr "hostname -I")]
      else []
    let out2 := pyStrip (env.execOut "hostname -f")
    let w2 : List String :=
      if out2 = "" then
        ["Could not retrieve domain name. Error: " ++ pyStrip (env.execErr "hostname -f")]
      else []
    { sessions := [SessEvent.openSession 1, SessEvent.closeSession 1]
    , executed := sshAllCommands
    , warnings := w1 ++ w2
    , raised := none }

/-! ### The WinRM operation -/

/-- A command result as returned by `session.run_ps`. -/
structure CommandResult where
  statusCode : Nat
  stdOut : String
  stdErr : String

/-- Environment for one WinRM operation run: the result of each of the
three `run_ps` calls. -/
structure WinrmEnv where
  probeIpResult : CommandResult
  probeDomainResult : CommandResult
  dispatchResult : CommandResult

/-- A remote-execution call issued over the WinRM session, tagged by the
step that issues it: `probe` for the two introspection commands of step 3,
`dispatch` for the self-invocation command of step 5. -/
inductive WinrmCall where
  | probe (cmd : String)
  | dispatch (cmd : String)
deriving DecidableEq, Repr

/-- The WinRM session configuration built in the Init step. -/
structure WinrmSessionConfig where
  endpoint : String
  transport : String
  serverCertValidation : Option String
deriving DecidableEq, Repr

/-- Embeds run.py lines 330-341: `protocol = 'ntlm' if use_ssl else 'http'`,
the endpoint f-string, and the `winrm.Session` keyword arguments
`transport=protocol` and
`server_cert_validation='ignore' if use_ssl else None`. -/
def winrmInit (host : String) (port : Nat) (useSsl : Bool) : WinrmSessionConfig :=
  let protocol := if useSsl then "ntlm" else "http"
  { endpoint := protocol ++ "://" ++ host ++ ":" ++ natStr port ++ "/wsman"
  , transport := protocol
  , serverCertValidation := if useSsl then some "ignore" else none }

/-- The command-line arguments of the current invocation: `sys.argv[0]`
(the script path) and `sys.argv[1:]`. -/
structure InvocationArgs where
  scriptPath : String
  rest : List String

/-- Python `sys.argv`. -/
def sysArgv (a : InvocationArgs) : List String := a.scriptPath :: a.rest

/-- Embeds `self.prevent_winrm_recursion = RECURSION_FLAG in sys.argv`
(run.py line 56): exact list membership of the flag string. -/
def preventWinrmRecursion (a : InvocationArgs) : Bool :=
  (sysArgv a).contains RECURSION_FLAG

/-- Embeds run.py lines 385-386: `" ".join(sys.argv[1:])` with
`" " + RECURSION_FLAG` appended. -/
def scriptArgsStr (a : InvocationArgs) : String :=
  String.intercalate " " a.rest ++ " " ++ RECURSION_FLAG

/-- The argument vector the constructed command carries, at token level: the
original invocation's arguments with the recursion-guard flag appended (the
space-join of these tokens is `scriptArgsStr`). -/
def scriptArgsTokens (a : InvocationArgs) : List String :=
  a.rest ++ [RECURSION_FLAG]

/-- Embeds the first probe command (run.py line 357). -/
def probeIpCommand : String := "ipconfig | findstr /i \"IPv4 Address\""

/-- Embeds the second probe command (run.py line 366). -/
def probeDomainCommand : String := "echo %USERDOMAIN%"

/-- Embeds the `ps_script` f-string of run.py lines 392-399, with the
`script_args` and `RECURSION_FLAG` interpolations made explicit. -/
def psScript (sargs : String) : String :=
  "\n            Write-Host \"=== RUNNING PYTHON SCRIPT ON REMOTE SYSTEM (SIMULATION) ===\"\n" ++
  "            Write-Host \"Script would be executed with these arguments: " ++ sargs ++ "\"\n" ++
  "            Write-Host \"Current system: $env:COMPUTERNAME\"\n" ++
  "            Write-Host \"Current user: $env:USERNAME\"\n" ++
  "            Write-Host \"Recursion prevention active: True (via " ++ RECURSION_FLAG ++ ")\"\n" ++
  "            Write-Host \"Script execution completed on remote system\"\n            "

/-- Outcome of one WinRM operation run: the session configuration, the
remote-execution calls issued in order, and the exception raised if any. -/
structure WinrmResult where
  config : WinrmSessionConfig
  calls : List WinrmCall
  raised : Option PyError
deriving DecidableEq, Repr

/-- Embeds `_perform_winrm_operations` (run.py lines 319-415): build the
session (330-341), run the two probes — whose non-zero statuses only log
warnings (357-372) — then construct `ps_script` from `script_args` and run
it (385-401); a non-zero dispatch status raises `RuntimeError` (403-409). -/
def runWinrm (host : String) (port : Nat) (useSsl : Bool)
    (a : InvocationArgs) (env : WinrmEnv) : WinrmResult :=
  let config := winrmInit host port useSsl
  let cmd := psScript (scriptArgsStr a)
  { config := config
  , calls := [.probe probeIpCommand, .probe probeDomainCommand, .dispatch cmd]
  , raised := if env.dispatchResult.statusCode = 0 then none else some .runtimeError }

/-- The dispatch commands among a list of WinRM calls. -/
def dispatchCmds (calls : List WinrmCall) : List String :=
  calls.filterMap (fun c => match c with | .dispatch s => some s | _ => none)

/-- The probe commands among a list of WinRM calls. -/
def probeCmds (calls : List WinrmCall) : List String :=
  calls.filterMap (fun c => match c with | .probe s => some s | _ => none)

/-! ### The orchestrating `run` method -/

/-- Environment for one whole script run. -/
structure ScriptEnv where
  argsv : InvocationArgs
  winrmHost : String
  winrmPort : Nat
  winrmUseSsl : Bool
  mssql : MssqlEnv
  ssh : SshEnv
  winrm : WinrmEnv

/-- Outcome of one whole script run: per-stage results (`none` when the
stage was never entered) and the process exit code. -/
structure ScriptResult where
  mssql : MssqlResult
  ssh : Option SshResult
  winrm : Option WinrmResult
  exitCode : Nat
deriving DecidableEq, Repr

/-- Embeds `MultiOperationsScript.run` (run.py lines 85-106): the three
operations in sequence, the WinRM stage guarded by
`if not self.prevent_winrm_recursion` (line 97), and the top-level
`except Exception: sys.exit(1)` (lines 104-106). -/
def runScript (env : ScriptEnv) : ScriptResult :=
  let m := runMssql env.mssql
  match m.raised with
  | some _ => { mssql := m, ssh := none, winrm := none, exitCode := 1 }
  | none =>
      let s := runSsh env.ssh
      match s.raised with
      | some _ => { mssql := m, ssh := some s, winrm := none, exitCode := 1 }
      | none =>
          if preventWinrmRecursion env.argsv then
            { mssql := m, ssh := some s, winrm := none, exitCode := 0 }
          else
            let w := runWinrm env.winrmHost env.winrmPort env.winrmUseSsl env.argsv env.winrm
            match w.raised with
            | some _ => { mssql := m, ssh := some s, winrm := some w, exitCode := 1 }
            | none => { mssql := m, ssh := some s, winrm := some w, exitCode := 0 }

/-- The WinRM calls a whole run issued (none when the stage never ran). -/
def winrmCallsOf (r : ScriptResult) : List WinrmCall :=
  match r.winrm with
  | none => []
  | some w => w.calls

/-! ### Concrete inputs used by witnesses and counterexamples -/

/-- A well-formed secret payload with both required fields. -/
def goodPayload : SecretPayload :=
  [("username", "dbadmin"), ("password", "s3cr3t")]

/-- A malformed secret payload missing the `password` field. -/
def badPayload : SecretPayload := [("username", "dbadmin")]

/-- An MS SQL environment where every step succeeds. -/
def closingMssqlEnv : MssqlEnv :=
  { awsResponse := [("SecretString", goodPayload)]
  , connectOk := true, createDbOk := true, connect2Ok := true
  , createSchemaOk := true, createTableOk := true
  , insertOk := true, selectOk := true }

/-- An MS SQL environment where the insert step fails after the second
connection was opened. -/
def leakyMssqlEnv : MssqlEnv :=
  { closingMssqlEnv with insertOk := false }

/-- An MS SQL environment whose secret-store response carries no
`SecretString` entry. -/
def noStringMssqlEnv : MssqlEnv :=
  { closingMssqlEnv with awsResponse := [] }

/-- An MS SQL environment whose secret payload is missing a field. -/
def badSecretMssqlEnv : MssqlEnv :=
  { closingMssqlEnv with awsResponse := [("SecretString", badPayload)] }

/-- An SSH environment where every command produces output. -/
def healthySshEnv : SshEnv :=
  { keyExists := true, connectOk := true
  , execOut := fun _ => "ok", execErr := fun _ => "" }

/-- An SSH environment where `uname -a` alone produces empty output. -/
def unameSilentSshEnv : SshEnv :=
  { healthySshEnv with
    execOut := fun cmd => if cmd == "uname -a" then "" else "ok" }

/-- A command result with success status. -/
def okResult : CommandResult := { statusCode := 0, stdOut := "", stdErr := "" }

/-- A WinRM environment where all three calls succeed. -/
def healthyWinrmEnv : WinrmEnv :=
  { probeIpResult := okResult, probeDomainResult := okResult
  , dispatchResult := okResult }

/-- An invocation whose argument vector does NOT carry the recursion-guard
flag. -/
def plainArgsv : InvocationArgs :=
  { scriptPath := "./run.py"
  , rest := ["--mssql-url", "sqlserver://db:1433", "--aws-secret-name", "mssql-creds"
            , "--ssh-host", "10.0.0.5", "--ssh-user", "ops"
            , "--ssh-key-path", "/home/ops/key.pem", "--winrm-host", "10.0.0.7"
            , "--winrm-user", "winadmin", "--winrm-password", "pw"] }

/-- The same invocation with the recursion-guard flag appended, as a remote
re-invocation would receive it. -/
def guardedArgsv : InvocationArgs :=
  { plainArgsv with rest := plainArgsv.rest ++ [RECURSION_FLAG] }

/-- A whole-script environment: healthy world, recursion guard active. -/
def guardedScriptEnv : ScriptEnv :=
  { argsv := guardedArgsv
  , winrmHost := "10.0.0.7", winrmPort := 5985, winrmUseSsl := false
  , mssql := closingMssqlEnv, ssh := healthySshEnv, winrm := healthyWinrmEnv }

/-- A whole-script environment with a malformed secret payload. -/
def badSecretScriptEnv : ScriptEnv :=
  { guardedScriptEnv with argsv := plainArgsv, mssql := badSecretMssqlEnv }

/-! ### Helper lemmas: decimal rendering -/

/-- Digit characters round-trip through `Char.toNat`. -/
theorem char_toNat_ofNat_digit (d : Nat) (h : d < 10) :
    (Char.ofNat (48 + d)).toNat = 48 + d := by
  interval_cases d <;> decide

/-- Appending one digit multiplies the decoded value by ten. -/
theorem decValue_append (xs : List Char) (c : Char) :
    decValue (xs ++ [c]) = 10 * decValue xs + (c.toNat - 48) := by
  simp [decValue, List.foldl_append]

/-- `decValue` is a left inverse of `decDigitsAux` given enough fuel. -/
theorem decValue_decDigitsAux :
    ∀ (fuel n : Nat), n < fuel → decValue (decDigitsAux fuel n) = n := by
  intro fuel
  induction fuel with
  | zero => intro n h; omega
  | succ f ih =>
      intro n h
      rw [decDigitsAux]
      by_cases h10 : n < 10
      · simp only [h10, if_pos]
        simp [decValue, char_toNat_ofNat_digit n h10]
      · simp only [h10, if_neg, not_false_iff]
        have hdiv : n / 10 < f := by
          have h1 : n / 10 < n := Nat.div_lt_self (by omega) (by omega)
          omega
        rw [decValue_append, ih (n / 10) hdiv,
          char_toNat_ofNat_digit (n % 10) (Nat.mod_lt n (by omega))]
        omega

/-- The decimal rendering of a natural number is injective. -/
theorem natStr_injective (m n : Nat) (h : natStr m = natStr n) : m = n := by
  have hdata : decDigitsAux (m + 1) m = decDigitsAux (n + 1) n := by
    have := congrArg String.data h
    simpa [natStr] using this
  have hm := decValue_decDigitsAux (m + 1) m (by omega)
  have hn := decValue_decDigitsAux (n + 1) n (by omega)
  rw [← hm, ← hn, hdata]

/-- Two generated database names coincide exactly when the truncated
whole-second timestamps coincide. -/
theorem dbName_eq_iff (t1 t2 : Nat) :
    dbName t1 = dbName t2 ↔ t1 / 1000000 = t2 / 1000000 := by
  constructor
  · intro h
    have hdata := congrArg String.data h
    simp only [dbName, String.data_append] at hdata
    have hs : (natStr (t1 / 1000000)).data = (natStr (t2 / 1000000)).data :=
      List.append_cancel_left hdata
    exact natStr_injective _ _ (by cases hn1 : natStr (t1 / 1000000); cases hn2 : natStr (t2 / 1000000); simp_all)
  · intro h
    simp [dbName, h]

/-! ### Helper lemmas: payload lookup and control flow -/

/-- A successful lookup implies the membership test succeeds. -/
theorem hasKey_of_lookupKey {p : SecretPayload} {k v : String}
    (h : lookupKey p k = some v) : hasKey p k = true := by
  unfold lookupKey at h
  cases hf : p.find? (fun kv => kv.1 == k) with
  | none => rw [hf] at h; simp at h
  | some kv =>
      have hmem := List.mem_of_find?_eq_some hf
      have hp := List.find?_some hf
      unfold hasKey
      rw [List.any_eq_true]
      exact ⟨kv, hmem, hp⟩

/-- When the MS SQL credential resolution raises, the whole run exits with
status 1 without attempting the SSH or WinRM stages. -/
theorem runScript_of_mssql_raised {env : ScriptEnv} {e : PyError}
    (h : (runMssql env.mssql).raised = some e) :
    runScript env =
      { mssql := runMssql env.mssql, ssh := none, winrm := none, exitCode := 1 } := by
  simp only [runScript]
  rw [h]

/-- When credential resolution fails, the MS SQL operation raises that
error before opening any connection. -/
theorem runMssql_of_resolve_error {env : MssqlEnv} {e : PyError}
    (h : resolveCredentials (getAwsSecret env.awsResponse) = .error e) :
    runMssql env = { sessions := [], raised := some e } := by
  simp only [runMssql]
  rw [h]

/-! ### Claim theorems -/

/-- C7 counterexample: the timestamps 5.0s and 5.9s (in microseconds) are
two distinct invocation times of the provisioning sequence, yet the
generated database names coincide — the suffix `int(time.time())` has
whole-second, not high, resolution. -/
theorem C7_counterexample_same_second_collision :
    dbName 5000000 = dbName 5900000 ∧ (5000000 : Nat) ≠ 5900000 := by
  exact ⟨rfl, by decide⟩

/-- C7 (amended): the provisioned database name carries a whole-second
timestamp suffix; two invocations of the provisioning sequence generate
distinct database names exactly when their timestamps truncate to distinct
whole seconds (so invocations within the same second collide). -/
theorem C7_db_name_distinct_iff_distinct_seconds :
    ∀ t1 t2 : Nat, dbName t1 = dbName t2 ↔ t1 / 1000000 = t2 / 1000000 :=
  dbName_eq_iff

/-- C4: inserting the three fixed sample rows into the freshly provisioned
table and reading all rows back returns exactly those three rows, in
insertion order, with the auto-generated identity values 1, 2, 3 strictly
increasing. -/
theorem C4_round_trip_three_rows :
    selectAllRows (insertSampleData freshTable) =
      [ { id := 1, name := "Sample Item 1"
        , description := "This is a description for sample item 1" }
      , { id := 2, name := "Sample Item 2"
        , description := "This is a description for sample item 2" }
      , { id := 3, name := "Sample Item 3"
        , description := "This is a description for sample item 3" } ]
    ∧ (selectAllRows (insertSampleData freshTable)).map
        (fun r => (r.name, r.description)) = sample_data
    ∧ List.Chain' (· < ·)
        ((selectAllRows (insertSampleData freshTable)).map TableRow.id) := by
  refine ⟨rfl, rfl, ?_⟩
  show List.Chain' (· < ·) [1, 2, 3]
  simp [List.chain'_cons]

/-- C8: the sample-row insertion issues parameterized statements whose SQL
text depends only on the table name — for any two sets of name/description
values the statement text is identical, and the values travel in the
parameter tuple, never concatenated into the SQL text. -/
theorem C8_insert_sql_text_value_independent :
    ∀ n1 d1 n2 d2 : String,
      (insertStatement table_name n1 d1).sqlText =
        (insertStatement table_name n2 d2).sqlText
      ∧ (insertStatement table_name n1 d1).params = (n1, d1) :=
  fun _ _ _ _ => ⟨rfl, rfl⟩

/-- C9: the Init step of the WinRM bridge derives the endpoint from the
configured host, port and transport selection; selecting the secure
transport (`use_ssl`) yields NTLM negotiated auth with certificate
validation disabled (`'ignore'`), the insecure selection yields the plain
`http` transport with no certificate-validation setting. -/
theorem C9_winrm_init_transport_and_endpoint :
    ∀ (host : String) (port : Nat),
      (winrmInit host port true).transport = "ntlm"
      ∧ (winrmInit host port true).serverCertValidation = some "ignore"
      ∧ (winrmInit host port false).transport = "http"
      ∧ (winrmInit host port false).serverCertValidation = none
      ∧ ∀ useSsl : Bool,
          (winrmInit host port useSsl).endpoint =
            (if useSsl then "ntlm" else "http") ++ "://" ++ host ++ ":"
              ++ natStr port ++ "/wsman" := by
  intro host port
  refine ⟨rfl, rfl, rfl, rfl, ?_⟩
  intro useSsl
  cases useSsl <;> rfl

/-- C3: a structured secret payload containing both `username` and
`password` resolves to a credential record with exactly those two stored
values; a payload missing either field makes resolution fail with the
missing-keys `ValueError` (the spec's `SecretMalformed`), and a whole run
whose secret payload is missing a field exits with status 1 without
attempting the SSH or WinRM stages. -/
theorem C3_resolve_both_fields_or_malformed :
    (∀ (p : SecretPayload) (u pw : String),
        lookupKey p "username" = some u → lookupKey p "password" = some pw →
        resolveCredentials (some p) = .ok { username := u, password := pw })
    ∧ (∀ p : SecretPayload,
        hasKey p "username" = false ∨ hasKey p "password" = false →
        resolveCredentials (some p) = .error .valueErrorMissingKeys)
    ∧ (∀ (env : ScriptEnv) (p : SecretPayload),
        getAwsSecret env.mssql.awsResponse = some p →
        (hasKey p "username" = false ∨ hasKey p "password" = false) →
        (runScript env).exitCode = 1 ∧ (runScript env).ssh = none
          ∧ (runScript env).winrm = none) := by
  have herr : ∀ p : SecretPayload,
      hasKey p "username" = false ∨ hasKey p "password" = false →
      resolveCredentials (some p) = .error .valueErrorMissingKeys := by
    intro p h
    unfold resolveCredentials
    rcases h with h | h <;> simp [h]
  refine ⟨?_, herr, ?_⟩
  · intro p u pw hu hpw
    have h1 := hasKey_of_lookupKey hu
    have h2 := hasKey_of_lookupKey hpw
    simp [resolveCredentials, h1, h2, hu, hpw]
  · intro env p hget hmiss
    have hres : resolveCredentials (getAwsSecret env.mssql.awsResponse)
        = .error .valueErrorMissingKeys := by
      rw [hget]; exact herr p hmiss
    have hm := runMssql_of_resolve_error hres
    have hr := runScript_of_mssql_raised (e := .valueErrorMissingKeys)
      (by rw [hm])
    rw [hr]
    exact ⟨rfl, rfl, rfl⟩

/-- C3 witness: the concrete payloads and the concrete run with a payload
missing `password` instantiate all three parts. -/
theorem C3_resolve_witness :
    resolveCredentials (some goodPayload) =
      .ok { username := "dbadmin", password := "s3cr3t" }
    ∧ resolveCredentials (some badPayload) = .error .valueErrorMissingKeys
    ∧ ((runScript badSecretScriptEnv).exitCode = 1
        ∧ (runScript badSecretScriptEnv).ssh = none
        ∧ (runScript badSecretScriptEnv).winrm = none) :=
  ⟨C3_resolve_both_fields_or_malformed.1 goodPayload "dbadmin" "s3cr3t" rfl rfl
  , C3_resolve_both_fields_or_malformed.2.1 badPayload (Or.inr rfl)
  , C3_resolve_both_fields_or_malformed.2.2 badSecretScriptEnv badPayload rfl
      (Or.inr rfl)⟩

/-- C10: when the secret-store response carries no `SecretString` entry,
`_get_aws_secret` returns `None` rather than raising anything; the failure
surfaces only at the later required-fields membership check, as the
`TypeError` of iterating over `None` — before any connection is opened —
and that `TypeError` is not the `ValueError` the spec taxonomy maps to
`SecretMalformed`. -/
theorem C10_missing_secret_string_returns_none :
    ∀ env : MssqlEnv,
      env.awsResponse.find? (fun kv => kv.1 == "SecretString") = none →
      getAwsSecret env.awsResponse = none
      ∧ resolveCredentials (getAwsSecret env.awsResponse) = .error .typeError
      ∧ (runMssql env).sessions = [] ∧ (runMssql env).raised = some .typeError
      ∧ PyError.typeError ≠ PyError.valueErrorMissingKeys := by
  intro env h
  have hget : getAwsSecret env.awsResponse = none := by
    unfold getAwsSecret
    rw [h]
    rfl
  have hres : resolveCredentials (getAwsSecret env.awsResponse)
      = .error .typeError := by rw [hget]; rfl
  have hm := runMssql_of_resolve_error hres
  rw [hm]
  exact ⟨hget, hres, rfl, rfl, by decide⟩

/-- C10 witness: the empty secret-store response instantiates the claim. -/
theorem C10_missing_secret_string_witness :
    getAwsSecret noStringMssqlEnv.awsResponse = none
    ∧ resolveCredentials (getAwsSecret noStringMssqlEnv.awsResponse)
        = .error .typeError
    ∧ (runMssql noStringMssqlEnv).sessions = []
    ∧ (runMssql noStringMssqlEnv).raised = some .typeError
    ∧ PyError.typeError ≠ PyError.valueErrorMissingKeys :=
  C10_missing_secret_string_returns_none noStringMssqlEnv rfl

/-- C5 counterexample: in a session where `uname -a` (one of the five fixed
introspection commands) returns empty output, the operation executes it and
completes without aborting, but logs NO warning at all — the soft-failure
warning exists only for the first two commands, not for the three commands
of the system-information loop. -/
theorem C5_counterexample_no_warning_for_uname :
    "uname -a" ∈ (runSsh unameSilentSshEnv).executed
    ∧ pyStrip (unameSilentSshEnv.execOut "uname -a") = ""
    ∧ (runSsh unameSilentSshEnv).warnings = []
    ∧ (runSsh unameSilentSshEnv).raised = none := by
  refine ⟨?_, ?_, ?_, ?_⟩ <;> decide

/-- C5 (amended): empty output never aborts the inspection — whenever the
key file exists and the connection succeeds, all five fixed commands execute
in order and the operation returns normally; but a warning is logged on
empty (stripped) output only for the first two commands (`hostname -I` and
`hostname -f`), while the three loop commands log nothing on empty
output. -/
theorem C5_soft_failure_continues_all_commands :
    ∀ env : SshEnv, env.keyExists = true → env.connectOk = true →
      (runSsh env).executed = sshAllCommands
      ∧ (runSsh env).raised = none
      ∧ (runSsh env).warnings.length =
          ((if pyStrip (env.execOut "hostname -I") = "" then 1 else 0) +
            (if pyStrip (env.execOut "hostname -f") = "" then 1 else 0)) := by
  intro env hk hc
  simp only [runSsh, hk, hc]
  refine ⟨rfl, rfl, ?_⟩
  by_cases h1 : pyStrip (env.execOut "hostname -I") = "" <;>
    by_cases h2 : pyStrip (env.execOut "hostname -f") = "" <;>
      simp [h1, h2]

/-- C5 witness: the environment where `uname -a` alone is silent satisfies
the hypotheses, all five commands run, and zero warnings are logged. -/
theorem C5_soft_failure_witness :
    (runSsh unameSilentSshEnv).executed = sshAllCommands
    ∧ (runSsh unameSilentSshEnv).raised = none
    ∧ (runSsh unameSilentSshEnv).warnings.length =
        ((if pyStrip (unameSilentSshEnv.execOut "hostname -I") = "" then 1 else 0) +
          (if pyStrip (unameSilentSshEnv.execOut "hostname -f") = "" then 1 else 0)) :=
  C5_soft_failure_continues_all_commands unameSilentSshEnv rfl rfl

/-- C6 counterexample: in the run where the sample-row insert fails, the
second database connection has been opened but the operation raises without
ever closing it — the session outlives the operation. -/
theorem C6_counterexample_leaked_connection :
    (runMssql leakyMssqlEnv).sessions =
      [.openSession 1, .closeSession 1, .openSession 2]
    ∧ (runMssql leakyMssqlEnv).raised = some .sqlError
    ∧ allSessionsClosed (runMssql leakyMssqlEnv).sessions = false := by
  refine ⟨?_, ?_, ?_⟩ <;> decide

/-- C6 (amended): sessions are closed on the success path — an MS SQL run
that returns normally closes both connections it opened, and the SSH
operation always balances its session — but a database failure raised after
a connection was opened propagates without closing it (see the
counterexample). -/
theorem C6_sessions_closed_on_success :
    ∀ (menv : MssqlEnv) (senv : SshEnv),
      ((runMssql menv).raised = none →
        allSessionsClosed (runMssql menv).sessions = true)
      ∧ allSessionsClosed (runSsh senv).sessions = true := by
  intro menv senv
  constructor
  · intro h
    simp only [runMssql] at h ⊢
    cases hr : resolveCredentials (getAwsSecret menv.awsResponse) with
    | error e => rfl
    | ok cred =>
        split_ifs at h ⊢ <;> simp_all
        decide
  · simp only [runSsh]
    split_ifs <;> rfl

/-- C6 witness: the all-steps-succeed environment returns normally and its
trace balances; so does the healthy SSH environment. -/
theorem C6_sessions_closed_witness :
    allSessionsClosed (runMssql closingMssqlEnv).sessions = true
    ∧ allSessionsClosed (runSsh healthySshEnv).sessions = true :=
  ⟨(C6_sessions_closed_on_success closingMssqlEnv healthySshEnv).1 (by decide)
  , (C6_sessions_closed_on_success closingMssqlEnv healthySshEnv).2⟩

/-- C1 counterexample: in a fully healthy run whose invocation carries the
recursion-guard flag, the guard is active and Dispatch never executes, but
the bridge does NOT perform the Probe step either — `run` skips the whole
WinRM operation, so zero probe commands execute instead of the claimed
two. -/
theorem C1_counterexample_probe_skipped_too :
    preventWinrmRecursion guardedScriptEnv.argsv = true
    ∧ (runScript guardedScriptEnv).exitCode = 0
    ∧ dispatchCmds (winrmCallsOf (runScript guardedScriptEnv)) = []
    ∧ ¬ (probeCmds (winrmCallsOf (runScript guardedScriptEnv))).length = 2
    ∧ (probeCmds (winrmCallsOf (runScript guardedScriptEnv))).length = 0 := by
  refine ⟨?_, ?_, ?_, ?_, ?_⟩ <;> decide

/-- C1 (amended): whenever the recursion guard is active, the entire WinRM
stage is skipped — the bridge issues no remote call at all, so in particular
Dispatch is never executed and Probe's introspection commands are not
performed either. -/
theorem C1_guard_skips_entire_winrm_stage :
    ∀ env : ScriptEnv, preventWinrmRecursion env.argsv = true →
      (runScript env).winrm = none ∧ winrmCallsOf (runScript env) = [] := by
  intro env h
  have hw : (runScript env).winrm = none := by
    simp only [runScript]
    cases hm : (runMssql env.mssql).raised with
    | some e => rfl
    | none =>
        cases hs : (runSsh env.ssh).raised with
        | some e => rfl
        | none => simp [h]
  exact ⟨hw, by simp [winrmCallsOf, hw]⟩

/-- C1 witness: the healthy guarded run instantiates the amended claim. -/
theorem C1_guard_skips_witness :
    (runScript guardedScriptEnv).winrm = none
    ∧ winrmCallsOf (runScript guardedScriptEnv) = [] :=
  C1_guard_skips_entire_winrm_stage guardedScriptEnv (by decide)

/-- C2: whenever the WinRM operation runs with the recursion guard
inactive, exactly one Dispatch remote execution occurs — its command is the
PowerShell script built around the original invocation's arguments with the
recursion-guard flag appended — and the argument vector it carries contains
the recursion-guard flag exactly once. -/
theorem C2_single_dispatch_with_flag_once :
    ∀ (host : String) (port : Nat) (useSsl : Bool) (a : InvocationArgs)
      (wenv : WinrmEnv),
      preventWinrmRecursion a = false →
      dispatchCmds (runWinrm host port useSsl a wenv).calls
          = [psScript (scriptArgsStr a)]
      ∧ (scriptArgsTokens a).count RECURSION_FLAG = 1 := by
  intro host port useSsl a wenv h
  refine ⟨rfl, ?_⟩
  have hnot : RECURSION_FLAG ∉ sysArgv a := by
    simpa [preventWinrmRecursion] using h
  have hrest : RECURSION_FLAG ∉ a.rest := fun hm => hnot (by simp [sysArgv, hm])
  simp [scriptArgsTokens, List.count_append, List.count_eq_zero.mpr hrest]

/-- C2 witness: the concrete flag-free invocation instantiates the claim. -/
theorem C2_single_dispatch_witness :
    dispatchCmds (runWinrm "10.0.0.7" 5985 false plainArgsv healthyWinrmEnv).calls
        = [psScript (scriptArgsStr plainArgsv)]
    ∧ (scriptArgsTokens plainArgsv).count RECURSION_FLAG = 1 :=
  C2_single_dispatch_with_flag_once "10.0.0.7" 5985 false plainArgsv
    healthyWinrmEnv (by decide)
